import Mathlib

/-!
Verification development for the Beacon worker (JavaScript sources).

The definitions below are shallow embeddings of the JavaScript source
files of the repository:
  - src/proxy/vless.js        (VlessHandler.handleHandshake)
  - src/proxy/trojan.js       (TrojanHandler.handleHandshake)
  - src/proxy/shadowsocks.js  (ShadowsocksHandler.handleHandshake)
  - src/proxy/stream.js       (ProxyStream, two revisions: the one under
    src/src/proxy/stream.js, called "Stream" below, and the later fixed
    revision, called "P4" below)
  - src/index.js              (handleTunnel, proxy selection)

Bytes are modelled as natural numbers (each < 256 in any real frame); a
WebSocket message / buffer is a `List Nat`.  JavaScript `Uint8Array`
indexing is modelled with `List.getD` (out-of-range reads only occur in
malformed frames, which every theorem below excludes by hypothesis or by
using concrete in-range inputs).
-/

namespace Beacon

/-- Decidable equality on `Except`, so concrete parser outcomes can be
settled by `decide`. -/
instance {ε α : Type} [DecidableEq ε] [DecidableEq α] : DecidableEq (Except ε α) := fun x y =>
  match x, y with
  | .ok a, .ok b =>
    if h : a = b then isTrue (by rw [h]) else isFalse (fun c => h (Except.ok.inj c))
  | .error a, .error b =>
    if h : a = b then isTrue (by rw [h]) else isFalse (fun c => h (Except.error.inj c))
  | .ok _, .error _ => isFalse (fun c => Except.noConfusion c)
  | .error _, .ok _ => isFalse (fun c => Except.noConfusion c)

/-- ASCII/latin1 rendering of a byte list, modelling `TextDecoder.decode`
on ASCII data (all concrete inputs used below are ASCII). -/
def decodeAscii (l : List Nat) : String :=
  String.mk (l.map Char.ofNat)

/-- Byte list of an ASCII string, modelling `TextEncoder.encode`. -/
def asciiBytes (s : String) : List Nat :=
  s.toList.map Char.toNat

/-- Value of one hexadecimal digit character, as `parseInt(-, 16)` sees it
(case-insensitive); non-hex characters do not occur in a validated UUID. -/
def hexVal (c : Char) : Nat :=
  if 48 ≤ c.toNat ∧ c.toNat ≤ 57 then c.toNat - 48
  else if 97 ≤ c.toNat ∧ c.toNat ≤ 102 then c.toNat - 87
  else if 65 ≤ c.toNat ∧ c.toNat ≤ 70 then c.toNat - 55
  else 0

/-- `VlessHandler.uuidToBytes` (vless.js): strip the dashes, then read 16
two-digit hexadecimal byte values. -/
def uuidToBytes (uuid : String) : List Nat :=
  let hex := uuid.toList.filter (fun c => c ≠ '-')
  (List.range 16).map (fun i => 16 * hexVal (hex.getD (2 * i) '0') + hexVal (hex.getD (2 * i + 1) '0'))

/-- Dotted-decimal rendering of four IPv4 bytes. -/
def ipv4String (a b c d : Nat) : String :=
  toString a ++ "." ++ toString b ++ "." ++ toString c ++ "." ++ toString d

/-- Lowercase hexadecimal rendering of a number, as JavaScript
`n.toString(16)` produces (no zero padding). -/
def natToHex (n : Nat) : String :=
  String.mk (Nat.toDigits 16 n)

/-- IPv6 rendering used by all three handlers: eight big-endian 16-bit
groups in unpadded lowercase hex, joined by colons. -/
def ipv6String (l : List Nat) : String :=
  String.intercalate ":" ((List.range 8).map (fun i => natToHex (256 * l.getD (2 * i) 0 + l.getD (2 * i + 1) 0)))

/-- The `Config` object built in src/index.js from the environment. -/
structure Config where
  uuid : String
  host : String
  proxyAddr : String
  proxyPort : Nat
deriving Repr, DecidableEq

/-- Result record returned by `VlessHandler.handleHandshake` and
`TrojanHandler.handleHandshake`: `version` models the JavaScript `version`
field, which both handlers set to `null` (here `none`). -/
structure TunnelHeader where
  addressRemote : String
  portRemote : Nat
  rawDataAfterHandshake : List Nat
  version : Option (List Nat)
deriving Repr, DecidableEq

/-- `VlessHandler.handleHandshake` (src/proxy/vless.js).  Layout:
`[ver][uuid:16][optLen][opt][cmd][port:2][atyp][addr]` then payload.
Note the source compares the 16 UUID bytes with `config.uuid` and throws
`Invalid UUID` on mismatch, and returns `version: null`. -/
def vlessHandleHandshake (cfg : Config) (data : List Nat) : Except String TunnelHeader :=
  if data.length < 17 then .error "Invalid VLESS handshake: too short"
  else if data.getD 0 0 ≠ 0 then .error ("Invalid VLESS version: " ++ toString (data.getD 0 0))
  else if (data.drop 1).take 16 ≠ uuidToBytes cfg.uuid then .error "Invalid UUID"
  else
    let addonLength := data.getD 17 0
    let o := 18 + addonLength
    -- the command byte data.getD o 0 is read and logged but not returned
    let port := 256 * data.getD (o + 1) 0 + data.getD (o + 2) 0
    let atyp := data.getD (o + 3) 0
    if atyp = 1 then
      .ok { addressRemote := ipv4String (data.getD (o + 4) 0) (data.getD (o + 5) 0) (data.getD (o + 6) 0) (data.getD (o + 7) 0),
            portRemote := port,
            rawDataAfterHandshake := data.drop (o + 8),
            version := none }
    else if atyp = 2 then
      let dl := data.getD (o + 4) 0
      .ok { addressRemote := decodeAscii ((data.drop (o + 5)).take dl),
            portRemote := port,
            rawDataAfterHandshake := data.drop (o + 5 + dl),
            version := none }
    else if atyp = 3 then
      .ok { addressRemote := ipv6String ((data.drop (o + 4)).take 16),
            portRemote := port,
            rawDataAfterHandshake := data.drop (o + 20),
            version := none }
    else .error ("Invalid address type: " ++ toString atyp)

/-- Whether a byte is an ASCII hexadecimal digit, as the source regex
tests the password-hash characters case-insensitively. -/
def isHexAsciiByte (b : Nat) : Bool :=
  (48 ≤ b && b ≤ 57) || (97 ≤ b && b ≤ 102) || (65 ≤ b && b ≤ 70)

/-- Index of the first CRLF pair in a byte list (byte-level model of
`dataStr.indexOf` of the two-character CR LF sequence; they coincide on
the ASCII prefixes all well-formed Trojan frames have). -/
def findCrlfAux : List Nat → Nat → Option Nat
  | [], _ => none
  | [_], _ => none
  | a :: b :: rest, i => if a = 13 ∧ b = 10 then some i else findCrlfAux (b :: rest) (i + 1)

/-- First CRLF index of a byte list. -/
def findCrlf (data : List Nat) : Option Nat :=
  findCrlfAux data 0

/-- The source loop `for (i = s; i < data.length - 1; i++)` looking for a
CRLF pair: returns the index right after the first CRLF at or beyond `s`,
or `s` itself when none is found. -/
def scanCrlfFrom (data : List Nat) (s : Nat) : Nat :=
  match findCrlf (data.drop s) with
  | some j => s + j + 2
  | none => s

/-- Tail of `TrojanHandler.handleHandshake` shared by the three address
branches: read the big-endian port right after the address, scan for the
second CRLF starting at the header end, and return everything after it. -/
def mkTrojanHeader (data : List Nat) (address : String) (addrOffset : Nat) : Except String TunnelHeader :=
  let payload := data.drop 58
  let port := 256 * payload.getD addrOffset 0 + payload.getD (addrOffset + 1) 0
  let payloadStartOffset := scanCrlfFrom data (58 + addrOffset + 2)
  .ok { addressRemote := address,
        portRemote := port,
        rawDataAfterHandshake := data.drop payloadStartOffset,
        version := none }

/-- `TrojanHandler.handleHandshake` (src/proxy/trojan.js).  Layout:
56 hex chars, CRLF, `[cmd][atyp][addr][port:2]`, CRLF, payload.  The
56-byte hash is only shape-checked, never verified against a password. -/
def trojanHandleHandshake (data : List Nat) : Except String TunnelHeader :=
  match findCrlf data with
  | none => .error "Invalid Trojan handshake: no CRLF found"
  | some crlfIndex =>
    if crlfIndex ≠ 56 ∨ ¬((data.take crlfIndex).all isHexAsciiByte) then
      .error "Invalid Trojan password hash"
    else
      let payload := data.drop 58
      -- payload.getD 0 0 is the command byte, read and logged but unused
      let atyp := payload.getD 1 0
      if atyp = 1 then
        mkTrojanHeader data (ipv4String (payload.getD 2 0) (payload.getD 3 0) (payload.getD 4 0) (payload.getD 5 0)) 6
      else if atyp = 3 then
        mkTrojanHeader data (decodeAscii ((payload.drop 3).take (payload.getD 2 0))) (3 + payload.getD 2 0)
      else if atyp = 4 then
        mkTrojanHeader data (ipv6String ((payload.drop 2).take 16)) 18
      else .error ("Invalid address type: " ++ toString atyp)

/-- Result record returned by `ShadowsocksHandler.handleHandshake`
(src/src/proxy/shadowsocks.js).  The raw-data field of this handler is
named `rawClientData`, not `rawDataAfterHandshake`, and holds the
complete first frame (source comment: return complete data). -/
structure SsHeader where
  addressRemote : String
  portRemote : Nat
  rawClientData : List Nat
  version : Option (List Nat)
deriving Repr, DecidableEq

/-- Tail of `ShadowsocksHandler.handleHandshake` shared by the three
address branches: reject an empty address string, read the big-endian
port at `portIndex`, and return the COMPLETE input frame as
`rawClientData` (source comment: return complete data to proxy). -/
def mkSsHeader (data : List Nat) (atyp : Nat) (addressValue : String) (portIndex : Nat) : Except String SsHeader :=
  if addressValue = "" then
    .error ("Destination address empty, address type is: " ++ toString atyp)
  else
    .ok { addressRemote := addressValue,
          portRemote := 256 * data.getD portIndex 0 + data.getD (portIndex + 1) 0,
          rawClientData := data,
          version := none }

/-- `ShadowsocksHandler.handleHandshake` (src/proxy/shadowsocks.js).
Layout `[atyp][addr][port:2][data]`; no command field at all, and the
returned `rawClientData` is the entire input frame. -/
def ssHandleHandshake (data : List Nat) : Except String SsHeader :=
  let atyp := data.getD 0 0
  if atyp = 1 then
    mkSsHeader data atyp (ipv4String (data.getD 1 0) (data.getD 2 0) (data.getD 3 0) (data.getD 4 0)) 5
  else if atyp = 3 then
    mkSsHeader data atyp (decodeAscii ((data.drop 2).take (data.getD 1 0))) (2 + data.getD 1 0)
  else if atyp = 4 then
    mkSsHeader data atyp (ipv6String ((data.drop 1).take 16)) 17
  else .error ("Invalid addressType for Shadowsocks: " ++ toString atyp)

/-- Protocol tags used by the detection logic of `handleFirstMessage`. -/
inductive Protocol
  | vless
  | trojan
  | vmess
  | shadowsocks
deriving Repr, DecidableEq

/-- What `ProxyStream.handleFirstMessage` sees of a handler result: it
reads the `rawDataAfterHandshake` field, which the Shadowsocks handler of
src/src/proxy/shadowsocks.js does not set (its field is `rawClientData`),
so that read yields JavaScript `undefined`, modelled as `none`. -/
structure ParsedFirst where
  addressRemote : String
  portRemote : Nat
  rawDataAfterHandshake : Option (List Nat)
  version : Option (List Nat)
deriving Repr, DecidableEq

/-- View of a VLESS/Trojan result as seen by `handleFirstMessage`. -/
def TunnelHeader.toParsed (h : TunnelHeader) : ParsedFirst :=
  ⟨h.addressRemote, h.portRemote, some h.rawDataAfterHandshake, h.version⟩

/-- View of a Shadowsocks result as seen by `handleFirstMessage`: the
`rawDataAfterHandshake` property is absent, hence `none`. -/
def SsHeader.toParsed (h : SsHeader) : ParsedFirst :=
  ⟨h.addressRemote, h.portRemote, none, h.version⟩

/-- `ProxyStream.handleFirstMessage` of the fixed stream revision
("P4"): requires at least 20 bytes; tries VLESS when byte 0 is zero
(continuing on failure), then Trojan when at least 58 bytes, then VMess
(whose handler unconditionally throws, so it never succeeds), then
Shadowsocks, and otherwise fails. -/
def handleFirstMessageP4 (cfg : Config) (data : List Nat) : Except String (Protocol × ParsedFirst) :=
  if data.length < 20 then
    .error ("Insufficient data for protocol detection: " ++ toString data.length ++ " bytes")
  else match (if data.getD 0 0 = 0 then (vlessHandleHandshake cfg data).toOption else none) with
  | some h => .ok (.vless, h.toParsed)
  | none =>
    match (if 58 ≤ data.length then (trojanHandleHandshake data).toOption else none) with
    | some h => .ok (.trojan, h.toParsed)
    | none =>
      match (ssHandleHandshake data).toOption with
      | some h => .ok (.shadowsocks, h.toParsed)
      | none => .error "Unable to determine protocol from client data"

/-- The protocol chosen by the P4 detection. -/
def detectP4 (cfg : Config) (data : List Nat) : Except String Protocol :=
  (handleFirstMessageP4 cfg data).map Prod.fst

/-- `ProxyStream.handleFirstMessage` of src/src/proxy/stream.js: VLESS
when byte 0 is zero (a parse failure is fatal, there is no fallthrough),
else VMess (always throws, skipped), else Trojan when the first 60 bytes
contain a CRLF, else Shadowsocks. -/
def handleFirstMessageStream (cfg : Config) (data : List Nat) : Except String ParsedFirst :=
  if data.getD 0 0 = 0 then (vlessHandleHandshake cfg data).map TunnelHeader.toParsed
  else if (findCrlf (data.take 60)).isSome then (trojanHandleHandshake data).map TunnelHeader.toParsed
  else (ssHandleHandshake data).map SsHeader.toParsed

/-- The body of the detector as the specification words it (length ≥ 62
and bytes [56,60) matching 0D 0A then one of 01/03/7F then one of
01/03/04 gives Trojan; else a v4-shaped UUID in bytes [1,17) gives VLESS;
else Shadowsocks).  Modelled from the spec for comparison with the source
detector; no such code exists in the JavaScript sources. -/
def uuidV4Shape (u : List Nat) : Bool :=
  decide (u.length = 16) && decide (u.getD 6 0 / 16 = 4) &&
    (decide (u.getD 8 0 / 16 = 8) || decide (u.getD 8 0 / 16 = 9) ||
     decide (u.getD 8 0 / 16 = 10) || decide (u.getD 8 0 / 16 = 11))

/-- The spec's claimed detection order (see `uuidV4Shape`). -/
def specDetectC5 (data : List Nat) : Protocol :=
  if 62 ≤ data.length ∧ data.getD 56 0 = 13 ∧ data.getD 57 0 = 10
      ∧ (data.getD 58 0 = 1 ∨ data.getD 58 0 = 3 ∨ data.getD 58 0 = 127)
      ∧ (data.getD 59 0 = 1 ∨ data.getD 59 0 = 3 ∨ data.getD 59 0 = 4) then .trojan
  else if uuidV4Shape ((data.drop 1).take 16) then .vless
  else .shadowsocks

/-- The send loop of `ProxyStream.remoteSocketToWS` (both revisions),
assuming the WebSocket stays open and an identity `decrypt`: the first
chunk is sent as one message prepended with the response header when one
is present (after which the header variable is nulled), and every other
chunk is sent verbatim. -/
def wsMessagesAux : Option (List Nat) → List (List Nat) → List (List Nat)
  | _, [] => []
  | some h, c :: cs => (h ++ c) :: wsMessagesAux none cs
  | none, c :: cs => c :: wsMessagesAux none cs

/-- Environment of one `connectAndWrite` call of the P4 revision: whether
the outbound dial and the handshake write succeed, the chunks the remote
delivers before its read side ends, and whether that end is a clean close
(`pipeTo` resolves) or an error (`pipeTo` rejects and the catch handler
calls `safeCloseWebSocket`). -/
structure EngineEnv where
  dialOk : Bool
  writeOk : Bool
  remoteChunks : List (List Nat)
  cleanClose : Bool
deriving Repr, DecidableEq

/-- Observable trace of one `connectAndWrite` call of the P4 revision:
outbound dials made (hostname, port), byte buffers written to the
outbound socket, WebSocket messages sent, WebSocket close calls
(`some code` for `close(code, reason)`, `none` for the plain `close()` of
`safeCloseWebSocket`), and the final value of `hasIncomingData`. -/
structure CawTrace where
  dials : List (String × Nat)
  outWrites : List (List Nat)
  wsSends : List (List Nat)
  wsCloseCodes : List (Option Nat)
  hasIncomingData : Bool
deriving Repr, DecidableEq

/-- `ProxyStream.connectAndWrite` of the P4 revision: validates address,
port and the raw handshake data (an absent or empty buffer throws
"No handshake data to send"), dials `config.proxyAddr:config.proxyPort`,
writes the raw data once, then runs `remoteSocketToWS`; every failure is
caught and closes the WebSocket with code 1002.  The function contains no
second dial and no re-send of the raw data. -/
def connectAndWriteP4 (cfg : Config) (address : String) (port : Nat)
    (raw : Option (List Nat)) (responseHeader : Option (List Nat)) (env : EngineEnv) : CawTrace :=
  if address = "" ∨ port = 0 then ⟨[], [], [], [some 1002], false⟩
  else match raw with
  | none => ⟨[], [], [], [some 1002], false⟩
  | some r =>
    if r.length = 0 then ⟨[], [], [], [some 1002], false⟩
    else if ¬env.dialOk then ⟨[(cfg.proxyAddr, cfg.proxyPort)], [], [], [some 1002], false⟩
    else if ¬env.writeOk then ⟨[(cfg.proxyAddr, cfg.proxyPort)], [], [], [some 1002], false⟩
    else ⟨[(cfg.proxyAddr, cfg.proxyPort)], [r],
          wsMessagesAux responseHeader env.remoteChunks,
          if env.cleanClose then [] else [none],
          !env.remoteChunks.isEmpty⟩

/-- Observable trace of `ProxyStream.connectAndWrite` of
src/src/proxy/stream.js. -/
structure StreamDialTrace where
  dials : List (String × Nat)
  outWrites : List (List Nat)
  wsCloseCodes : List Nat
deriving Repr, DecidableEq

/-- `ProxyStream.connectAndWrite` of src/src/proxy/stream.js: always
dials the parsed (address, port) it was given; on success writes the raw
bytes once; a write failure — including the `undefined` raw field the
Shadowsocks result produces, whose `.length` access throws — is caught
and closes the WebSocket with 1002 (no payload bytes reach the wire). -/
def connectAndWriteStream (address : String) (port : Nat) (raw : Option (List Nat)) (writeOk : Bool) : StreamDialTrace :=
  match raw with
  | none => ⟨[(address, port)], [], [1002]⟩
  | some r => if writeOk then ⟨[(address, port)], [r], []⟩ else ⟨[(address, port)], [], [1002]⟩

/-- First-message handling of src/src/proxy/stream.js as a dial trace:
a protocol-determination failure closes the WebSocket with 1002 and dials
nothing; otherwise `connectAndWrite` runs on the parsed header. -/
def firstMessageTrace (cfg : Config) (data : List Nat) (writeOk : Bool) : StreamDialTrace :=
  match handleFirstMessageStream cfg data with
  | .error _ => ⟨[], [], [1002]⟩
  | .ok h => connectAndWriteStream h.addressRemote h.portRemote h.rawDataAfterHandshake writeOk

/-- Per-chunk environment of the ingress pump: whether the outbound
socket write for this chunk succeeds. -/
structure ChunkEnv where
  writeOk : Bool
deriving Repr, DecidableEq

/-- Per-connection state driven by `ProxyStream.handleChunk`: whether the
`remoteSocketWrapper` slot is filled, plus the accumulated observable
trace. -/
structure ConnState where
  slotFilled : Bool
  dials : List (String × Nat)
  outWrites : List (List Nat)
  wsCloseCodes : List Nat
deriving Repr, DecidableEq

/-- The initial state of a fresh `ProxyStream` (empty slot, no trace). -/
def initConnState : ConnState := ⟨false, [], [], []⟩

/-- `ProxyStream.handleChunk` for one chunk: once the WebSocket has been
closed its close event ends the readable stream, so nothing further is
processed; with an empty slot the chunk goes through
`handleFirstMessage`; with a filled slot it goes through
`forwardToRemote`, whose try/catch swallows a write error (the chunk is
dropped, nothing else happens). -/
def stepChunk (cfg : Config) (st : ConnState) (chunk : List Nat) (env : ChunkEnv) : ConnState :=
  if st.wsCloseCodes = [] then
    if st.slotFilled then
      if env.writeOk then { st with outWrites := st.outWrites ++ [chunk] } else st
    else
      match handleFirstMessageStream cfg chunk with
      | .error _ => { st with wsCloseCodes := st.wsCloseCodes ++ [1002] }
      | .ok h =>
        let t := connectAndWriteStream h.addressRemote h.portRemote h.rawDataAfterHandshake env.writeOk
        { slotFilled := true,
          dials := st.dials ++ t.dials,
          outWrites := st.outWrites ++ t.outWrites,
          wsCloseCodes := st.wsCloseCodes ++ t.wsCloseCodes }
  else st

/-- The ingress pump: `handleChunk` applied to each WebSocket message in
order (the `WritableStream` of `process` serialises the calls). -/
def runChunks (cfg : Config) : ConnState → List (List Nat × ChunkEnv) → ConnState
  | st, [] => st
  | st, (c, env) :: rest => runChunks cfg (stepChunk cfg st c env) rest

/-- `kvLookup kv code` models the JavaScript object lookup
`proxyKv[code]` on the parsed `PROXY_LIST` JSON. -/
def kvLookup (kv : List (String × List String)) (code : String) : Option (List String) :=
  (kv.find? (fun p => p.1 = code)).map (fun p => p.2)

/-- JavaScript `s.replace(':', '-')`: only the first colon is replaced. -/
def replaceFirstColon : List Char → List Char
  | [] => []
  | c :: cs => if c = ':' then '-' :: cs else c :: replaceFirstColon cs

/-- String form of `replaceFirstColon`. -/
def jsReplaceColonDash (s : String) : String :=
  String.mk (replaceFirstColon s.toList)

/-- The region-selection block of `handleTunnel` (src/index.js): two
random bytes come from `crypto.getRandomValues`, but only byte 0 is used;
`kvIndex = randBytes[0] % kvidList.length` picks the code and the same
`randBytes[0] % proxyList.length` picks the entry; an empty or missing
list yields status 502. -/
def selectProxy (kvidList : List String) (kv : List (String × List String)) (randBytes : List Nat) : Except Nat String :=
  let b0 := randBytes.getD 0 0
  let code := kvidList.getD (b0 % kvidList.length) ""
  match kvLookup kv code with
  | some proxyList =>
    if 0 < proxyList.length then
      .ok (jsReplaceColonDash (proxyList.getD (b0 % proxyList.length) ""))
    else .error 502
  | none => .error 502

/-- Index view of the same selection block: which code index and which
entry index a given value of `randBytes[0]` produces. -/
def selectIndices (kvidList : List String) (kv : List (String × List String)) (b0 : Nat) : Except Nat (Nat × Nat) :=
  let kvIndex := b0 % kvidList.length
  match kvLookup kv (kvidList.getD kvIndex "") with
  | some proxyList =>
    if 0 < proxyList.length then .ok (kvIndex, b0 % proxyList.length)
    else .error 502
  | none => .error 502

/-- The request headers relevant to `handleTunnel`. -/
structure RequestHeaders where
  upgrade : Option String
  secWebsocketProtocol : Option String
deriving Repr, DecidableEq

/-- Outcome of the upgrade decision in `handleTunnel`. -/
structure TunnelUpgrade where
  status : Nat
  isWebSocket : Bool
  initialBuffers : List (List Nat)
deriving Repr, DecidableEq

/-- The WebSocket-upgrade branch of `handleTunnel` (src/index.js)
combined with `makeReadableWebSocketStream` (stream.js): only the
`Upgrade` header is consulted; the stream's `start` installs event
listeners and enqueues nothing, so no buffer exists before the first
WebSocket message. -/
def handleTunnelUpgrade (h : RequestHeaders) : TunnelUpgrade :=
  if h.upgrade = some "websocket" then ⟨101, true, []⟩
  else ⟨200, false, []⟩

/-- Modelled from the spec: base64url decoding (padding-insensitive,
with dash and underscore mapped to plus and slash) of the early-data
payload; no such decoding code exists in the JavaScript sources.
Value of one base64 alphabet character. -/
def b64Val (c : Char) : Nat :=
  if 65 ≤ c.toNat ∧ c.toNat ≤ 90 then c.toNat - 65
  else if 97 ≤ c.toNat ∧ c.toNat ≤ 122 then c.toNat - 97 + 26
  else if 48 ≤ c.toNat ∧ c.toNat ≤ 57 then c.toNat - 48 + 52
  else if c = '+' ∨ c = '-' then 62
  else if c = '/' ∨ c = '_' then 63
  else 0

/-- Modelled from the spec: 6-bit groups to bytes (see `b64Val`). -/
def b64Groups : List Nat → List Nat
  | a :: b :: c :: d :: rest => (a * 4 + b / 16) :: ((b % 16) * 16 + c / 4) :: ((c % 4) * 64 + d) :: b64Groups rest
  | [a, b] => [a * 4 + b / 16]
  | [a, b, c] => [a * 4 + b / 16, (b % 16) * 16 + c / 4]
  | _ => []

/-- Modelled from the spec: the base64url decoder applied to the
`sec-websocket-protocol` early-data carrier (see `b64Val`). -/
def specBase64UrlDecode (s : String) : List Nat :=
  b64Groups ((s.toList.filter (fun c => c ≠ '=')).map b64Val)

/-- Modelled from the spec: the UDP relay framing
`"udp:" ++ host ++ ":" ++ port ++ "|" ++ payload`; no such framing code
exists in the JavaScript sources. -/
def specUdpRelayFrameBytes (host : String) (port : Nat) (payload : List Nat) : List Nat :=
  asciiBytes ("udp:" ++ host ++ ":" ++ toString port ++ "|") ++ payload

/-- Modelled from the spec: the fixed UDP relay endpoint; no such
endpoint occurs in the JavaScript sources. -/
def specUdpRelayEndpoint : String × Nat := ("udp-relay.hobihaus.space", 7300)

/-- Where the VLESS header of a frame ends, following the documented
layout `[ver][uuid:16][optLen][opt][cmd][port:2][atyp][addr]`: the fixed
fields through the address type occupy `18 + optLen + 4` bytes
(1 version + 16 UUID + 1 option length + optLen options + 1 command +
2 port + 1 address type), then the address itself. -/
def vlessHeaderLen (data : List Nat) : Nat :=
  let addonLength := data.getD 17 0
  let o := 18 + addonLength
  let atyp := data.getD (o + 3) 0
  o + 4 + (if atyp = 1 then 4 else if atyp = 2 then 1 + data.getD (o + 4) 0 else if atyp = 3 then 16 else 0)

/-- Length of the address field of a Trojan frame (the address type is
the byte at offset 59 = 56 hash + 2 CRLF + 1 command). -/
def trojanAddrLen (data : List Nat) : Nat :=
  let payload := data.drop 58
  let atyp := payload.getD 1 0
  if atyp = 1 then 4 else if atyp = 3 then 1 + payload.getD 2 0 else if atyp = 4 then 16 else 0

/-- Offset of the second CRLF of a well-formed Trojan frame: 56 hash +
2 CRLF + 1 command + 1 address type + address + 2 port. -/
def trojanSecondCrlfPos (data : List Nat) : Nat := 62 + trojanAddrLen data

/-- Where the Trojan header ends (second CRLF included), following the
documented layout `[hash:56][CRLF][cmd][atyp][addr][port:2][CRLF]`. -/
def trojanHeaderLen (data : List Nat) : Nat := 64 + trojanAddrLen data

/-- Demo configuration (UUID taken from the repository quick-start). -/
def demoCfg : Config :=
  { uuid := "38425afe-8466-4876-8223-f3d604ca3c18",
    host := "worker.example",
    proxyAddr := "198.51.100.7",
    proxyPort := 443 }

/-- Byte form of the demo configuration's UUID. -/
def cfgUuidBytes : List Nat :=
  [0x38, 0x42, 0x5a, 0xfe, 0x84, 0x66, 0x48, 0x76, 0x82, 0x23, 0xf3, 0xd6, 0x04, 0xca, 0x3c, 0x18]

/-- Byte form of the spec's example UUID
7b79e5e1-0eb0-4a88-8b0f-60ebf2a0ab1c (v4-shaped, differs from the demo
configuration's UUID). -/
def otherUuidBytes : List Nat :=
  [0x7b, 0x79, 0xe5, 0xe1, 0x0e, 0xb0, 0x4a, 0x88, 0x8b, 0x0f, 0x60, 0xeb, 0xf2, 0xa0, 0xab, 0x1c]

/-- The spec's VLESS/TCP/domain example frame, carrying the demo
configuration's UUID: destination example.com:443, residual payload a
small HTTP request. -/
def demoVlessFrame : List Nat :=
  0 :: cfgUuidBytes ++ [0, 1, 0x01, 0xBB, 2, 11] ++ asciiBytes "example.com" ++ asciiBytes "GET / HTTP/1.1\r\n\r\n"

/-- The same frame with the spec's example UUID in bytes [1,17). -/
def demoVlessOther : List Nat :=
  0 :: otherUuidBytes ++ [0, 1, 0x01, 0xBB, 2, 11] ++ asciiBytes "example.com" ++ asciiBytes "GET / HTTP/1.1\r\n\r\n"

/-- The spec's Shadowsocks/UDP(DNS) example: atyp 1, destination
1.1.1.1:53, followed by an 8-byte query. -/
def demoDnsQuery : List Nat := [0xde, 0xad, 0xbe, 0xef, 0, 1, 2, 3]

/-- First frame of the Shadowsocks DNS example. -/
def demoSsDnsFrame : List Nat := [1, 1, 1, 1, 1, 0, 0x35] ++ demoDnsQuery

/-- The spec's Trojan/TCP/IPv4 example: 56 hex characters, CRLF, command
1, atyp 1, 8.8.8.8:53, CRLF, payload "query". -/
def demoTrojanFrame : List Nat :=
  asciiBytes "aaaaaaaaaaaaaaaaaaaaaaaaaaaaaaaaaaaaaaaaaaaaaaaaaaaaaaaa"
    ++ [13, 10] ++ [1, 1, 8, 8, 8, 8, 0, 0x35] ++ [13, 10] ++ asciiBytes "query"

/-- A 20-byte frame whose bytes [1,17) are a v4-shaped UUID different
from the configured one: the spec's detector classifies it VLESS, the
source detector rejects it. -/
def demoFrameC5 : List Nat := 0 :: otherUuidBytes ++ [0, 0, 0]

/-- Demo `PROXY_LIST`: region SG with two entries, region HK with one. -/
def demoKv : List (String × List String) :=
  [("SG", ["1.1.1.1:1", "2.2.2.2:2"]), ("HK", ["3.3.3.3:3"])]

/-- The chunks the filled-slot ingress pump writes to the outbound
socket: every chunk whose socket write succeeds, in arrival order. -/
def forwardWrites (chunks : List (List Nat × ChunkEnv)) : List (List Nat) :=
  (chunks.filter (fun p => p.2.writeOk)).map Prod.fst

/-- A configuration whose UUID is the spec's example UUID (used to show
`demoVlessOther` is well-formed apart from its UUID). -/
def otherCfg : Config :=
  { uuid := "7b79e5e1-0eb0-4a88-8b0f-60ebf2a0ab1c",
    host := "worker.example",
    proxyAddr := "198.51.100.7",
    proxyPort := 443 }

/-- The header `demoVlessFrame` parses to. -/
def demoVlessHeader : TunnelHeader :=
  ⟨"example.com", 443, asciiBytes "GET / HTTP/1.1\r\n\r\n", none⟩

/-- The parsed view of `demoVlessHeader` seen by `handleFirstMessage`. -/
def demoVlessParsed : ParsedFirst :=
  ⟨"example.com", 443, some (asciiBytes "GET / HTTP/1.1\r\n\r\n"), none⟩

/-- The header `demoTrojanFrame` parses to. -/
def demoTrojanHeader : TunnelHeader :=
  ⟨"8.8.8.8", 53, asciiBytes "query", none⟩

/-- A 20-byte Shadowsocks frame (destination 1.1.1.1:53 followed by 13
payload bytes), long enough for the P4 minimum-length check. -/
def demoSsLongFrame : List Nat := [1, 1, 1, 1, 1, 0, 0x35] ++ asciiBytes "0123456789abc"

/-! Helper lemmas shared by the claim theorems. -/

/-- With no pending response header every remote chunk is sent verbatim. -/
theorem wsMessagesAux_none (cs : List (List Nat)) : wsMessagesAux none cs = cs := by
  induction cs with
  | nil => rfl
  | cons c cs ih => rw [wsMessagesAux, ih]

/-- Every successful VLESS parse returns a `none` (JavaScript `null`)
`version` field. -/
theorem vless_ok_version (cfg : Config) (data : List Nat) (h : TunnelHeader)
    (hok : vlessHandleHandshake cfg data = .ok h) : h.version = none := by
  unfold vlessHandleHandshake at hok
  dsimp only [] at hok
  split_ifs at hok
  all_goals injection hok with hh
  all_goals rw [← hh]

/-- Every successful Trojan parse returns a `none` `version` field. -/
theorem trojan_ok_version (data : List Nat) (h : TunnelHeader)
    (hok : trojanHandleHandshake data = .ok h) : h.version = none := by
  unfold trojanHandleHandshake mkTrojanHeader at hok
  split at hok
  · exact absurd hok (by simp)
  · dsimp only [] at hok
    split_ifs at hok
    all_goals injection hok with hh
    all_goals rw [← hh]

/-- Every successful Shadowsocks parse returns a `none` `version` field. -/
theorem ss_ok_version (data : List Nat) (h : SsHeader)
    (hok : ssHandleHandshake data = .ok h) : h.version = none := by
  unfold ssHandleHandshake mkSsHeader at hok
  dsimp only [] at hok
  split_ifs at hok
  all_goals injection hok with hh
  all_goals rw [← hh]

/-- Every successful Shadowsocks parse returns the complete input frame
as its `rawClientData`. -/
theorem ss_ok_raw (data : List Nat) (h : SsHeader)
    (hok : ssHandleHandshake data = .ok h) : h.rawClientData = data := by
  unfold ssHandleHandshake mkSsHeader at hok
  dsimp only [] at hok
  split_ifs at hok
  all_goals injection hok with hh
  all_goals rw [← hh]

/-- `List.getD` through `List.drop`. -/
theorem getD_drop (l : List Nat) (n i d : Nat) : (l.drop n).getD i d = l.getD (n + i) d := by
  simp [List.getD_eq_getElem?_getD, List.getElem?_drop]

/-- The CRLF scan loop finds a CRLF pair sitting right at its start
index and returns the position just after it. -/
theorem scanCrlfFrom_at (data : List Nat) (s : Nat) (hlt : s + 1 < data.length)
    (h13 : data.getD s 0 = 13) (h10 : data.getD (s + 1) 0 = 10) :
    scanCrlfFrom data s = s + 2 := by
  have hs : s < data.length := by omega
  have e13 : data[s] = 13 := by
    rw [← h13]; simp [List.getD_eq_getElem?_getD, List.getElem?_eq_getElem hs]
  have e10 : data[s + 1] = 10 := by
    rw [← h10]; simp [List.getD_eq_getElem?_getD, List.getElem?_eq_getElem hlt]
  have hdrop : data.drop s = 13 :: 10 :: data.drop (s + 2) := by
    rw [List.drop_eq_getElem_cons hs, List.drop_eq_getElem_cons hlt, e13, e10]
  unfold scanCrlfFrom findCrlf
  rw [hdrop]
  simp [findCrlfAux]

/-- Every successful VLESS parse returns exactly the slice of the frame
after the header end as its residual payload. -/
theorem vless_ok_raw (cfg : Config) (data : List Nat) (h : TunnelHeader)
    (hok : vlessHandleHandshake cfg data = .ok h) :
    h.rawDataAfterHandshake = data.drop (vlessHeaderLen data) := by
  unfold vlessHandleHandshake at hok
  unfold vlessHeaderLen
  dsimp only [] at hok ⊢
  split_ifs at hok
  all_goals injection hok with hh
  all_goals rw [← hh]
  all_goals split_ifs
  all_goals dsimp only []
  all_goals first | rfl | omega | (congr 1 <;> omega)

/-- Every successful Trojan parse of a frame whose second CRLF sits at
the expected position returns exactly the slice after the header end as
its residual payload. -/
theorem trojan_ok_raw (data : List Nat) (h : TunnelHeader)
    (hok : trojanHandleHandshake data = .ok h)
    (h13 : data.getD (trojanSecondCrlfPos data) 0 = 13)
    (h10 : data.getD (trojanSecondCrlfPos data + 1) 0 = 10)
    (hlen : trojanSecondCrlfPos data + 1 < data.length) :
    h.rawDataAfterHandshake = data.drop (trojanHeaderLen data) := by
  unfold trojanSecondCrlfPos trojanAddrLen at h13 h10 hlen
  unfold trojanHeaderLen trojanAddrLen
  unfold trojanHandleHandshake mkTrojanHeader at hok
  split at hok
  · exact absurd hok (by simp)
  · dsimp only [] at hok h13 h10 hlen ⊢
    split_ifs at hok with hhash hA1 hA3 hA4
    · injection hok with hh
      rw [← hh]
      dsimp only []
      rw [if_pos hA1] at h13 h10 hlen ⊢
      rw [scanCrlfFrom_at data (58 + 6 + 2) (by omega) h13 h10]
    · injection hok with hh
      rw [← hh]
      dsimp only []
      rw [if_neg hA1, if_pos hA3] at h13 h10 hlen ⊢
      have h13x : data.getD (58 + (3 + (data.drop 58).getD 2 0) + 2) 0 = 13 := by
        rw [show 58 + (3 + (data.drop 58).getD 2 0) + 2
              = 62 + (1 + (data.drop 58).getD 2 0) from by omega]
        exact h13
      have h10x : data.getD (58 + (3 + (data.drop 58).getD 2 0) + 2 + 1) 0 = 10 := by
        rw [show 58 + (3 + (data.drop 58).getD 2 0) + 2 + 1
              = 62 + (1 + (data.drop 58).getD 2 0) + 1 from by omega]
        exact h10
      rw [scanCrlfFrom_at data (58 + (3 + (data.drop 58).getD 2 0) + 2) (by omega) h13x h10x]
      congr 1
      omega
    · injection hok with hh
      rw [← hh]
      dsimp only []
      rw [if_neg hA1, if_neg hA3, if_pos hA4] at h13 h10 hlen ⊢
      rw [scanCrlfFrom_at data (58 + 18 + 2) (by omega) h13 h10]


/-- C1 counterexample: the claim says the parsed VLESS `TunnelHeader`
carries the two-byte response prefix `[version, 0]` (here `[0, 0]`), but
on the spec's own VLESS example frame the source handler returns
`version: null` (`none`), not `some [0, 0]`. -/
theorem c1_counterexample :
    (vlessHandleHandshake demoCfg demoVlessFrame).toOption.map TunnelHeader.version = some none ∧
    (some (none : Option (List Nat))) ≠ some (some [0, 0]) := by
  constructor
  · decide
  · decide

/-- C1 (amended): every successful parse of any of the three handlers
returns a `null` response header (`version := none`), so the first
outbound-to-client WebSocket message is exactly the first remote chunk
with nothing prepended; the prepend mechanism of `remoteSocketToWS`
would merge a supplied header with the first chunk into one message and
send it at most once (all later chunks go out verbatim). -/
theorem c1_amended :
    (∀ (cfg : Config) (data : List Nat) (h : TunnelHeader),
        vlessHandleHandshake cfg data = .ok h → h.version = none) ∧
    (∀ (data : List Nat) (h : TunnelHeader),
        trojanHandleHandshake data = .ok h → h.version = none) ∧
    (∀ (data : List Nat) (h : SsHeader),
        ssHandleHandshake data = .ok h → h.version = none) ∧
    (∀ cs : List (List Nat), wsMessagesAux none cs = cs) ∧
    (∀ (p c : List Nat) (cs : List (List Nat)),
        wsMessagesAux (some p) (c :: cs) = (p ++ c) :: cs) :=
  ⟨vless_ok_version, trojan_ok_version, ss_ok_version, wsMessagesAux_none,
   fun p c cs => by rw [wsMessagesAux, wsMessagesAux_none]⟩

/-- C1 witness: the amended statement applied to the spec's VLESS example
frame and to concrete chunk lists. -/
theorem c1_amended_witness :
    demoVlessHeader.version = none ∧
    wsMessagesAux none [[1], [2]] = [[1], [2]] ∧
    wsMessagesAux (some [9]) [[1], [2]] = [[9, 1], [2]] :=
  ⟨c1_amended.1 demoCfg demoVlessFrame demoVlessHeader (by decide),
   c1_amended.2.2.2.1 [[1], [2]],
   c1_amended.2.2.2.2 [9] [1] [[2]]⟩

/-- C2 counterexample: the claim says the tunnel layer never compares the
UUID bytes with the configured UUID and accepts any v4-shaped UUID; but
on an otherwise well-formed frame carrying the spec's example UUID
(accepted verbatim when it IS the configured one, second conjunct) the
source handler fails with "Invalid UUID" under the demo configuration. -/
theorem c2_counterexample :
    vlessHandleHandshake demoCfg demoVlessOther = .error "Invalid UUID" ∧
    (vlessHandleHandshake otherCfg demoVlessOther).isOk = true := by
  constructor
  · decide
  · decide

/-- C2 (amended): `VlessHandler.handleHandshake` compares the 16 UUID
bytes at offsets [1,17) against the configured UUID and rejects every
mismatching frame with the error "Invalid UUID"; parsing succeeds only
for the configured UUID. -/
theorem c2_amended (cfg : Config) (data : List Nat)
    (hlen : 17 ≤ data.length) (hver : data.getD 0 0 = 0)
    (huuid : (data.drop 1).take 16 ≠ uuidToBytes cfg.uuid) :
    vlessHandleHandshake cfg data = .error "Invalid UUID" := by
  unfold vlessHandleHandshake
  rw [if_neg (by omega), if_neg (not_not_intro hver), if_pos huuid]

/-- C2 witness: the amended statement applied to a concrete 17-byte frame
whose UUID bytes differ from the demo configuration's UUID. -/
theorem c2_amended_witness :
    vlessHandleHandshake demoCfg (0 :: List.replicate 16 5) = .error "Invalid UUID" :=
  c2_amended demoCfg (0 :: List.replicate 16 5) (by decide) (by decide) (by decide)

/-- C6 counterexample: the claim says no protocol's residual payload ever
includes header bytes, but the Shadowsocks handler returns the COMPLETE
first frame (its 7-byte `[atyp][ipv4][port]` header included) as the raw
data, as seen on the spec's own Shadowsocks DNS example. -/
theorem c6_counterexample :
    (ssHandleHandshake demoSsDnsFrame).toOption.map SsHeader.rawClientData = some demoSsDnsFrame ∧
    demoSsDnsFrame ≠ demoSsDnsFrame.drop 7 := by
  refine ⟨by decide, by decide⟩

/-- C6 (amended): the VLESS handler (always) and the Trojan handler (on
frames whose second CRLF sits at the documented position) return exactly
the slice of the first frame after the protocol header as the residual
payload; the Shadowsocks handler instead returns the complete frame,
header bytes included. -/
theorem c6_amended :
    (∀ (cfg : Config) (data : List Nat) (h : TunnelHeader),
        vlessHandleHandshake cfg data = .ok h →
        h.rawDataAfterHandshake = data.drop (vlessHeaderLen data)) ∧
    (∀ (data : List Nat) (h : TunnelHeader),
        trojanHandleHandshake data = .ok h →
        data.getD (trojanSecondCrlfPos data) 0 = 13 →
        data.getD (trojanSecondCrlfPos data + 1) 0 = 10 →
        trojanSecondCrlfPos data + 1 < data.length →
        h.rawDataAfterHandshake = data.drop (trojanHeaderLen data)) ∧
    (∀ (data : List Nat) (h : SsHeader),
        ssHandleHandshake data = .ok h → h.rawClientData = data) :=
  ⟨vless_ok_raw, trojan_ok_raw, ss_ok_raw⟩

/-- C6 witness: the amended statement applied to the spec's Trojan and
VLESS example frames. -/
theorem c6_amended_witness :
    demoTrojanHeader.rawDataAfterHandshake = demoTrojanFrame.drop (trojanHeaderLen demoTrojanFrame) ∧
    demoVlessHeader.rawDataAfterHandshake = demoVlessFrame.drop (vlessHeaderLen demoVlessFrame) :=
  ⟨c6_amended.2.1 demoTrojanFrame demoTrojanHeader (by decide) (by decide) (by decide) (by decide),
   c6_amended.1 demoCfg demoVlessFrame demoVlessHeader (by decide)⟩

/-- C3 counterexample: on the spec's Shadowsocks DNS frame (destination
port 53, which the claim says must be sent to the fixed UDP relay) the
engine dials the parsed destination 1.1.1.1:53 itself — not the relay
endpoint — and writes no `udp:`-framed message (the write fails because
the Shadowsocks result lacks the `rawDataAfterHandshake` field and the
WebSocket is closed with 1002). -/
theorem c3_counterexample :
    (firstMessageTrace demoCfg demoSsDnsFrame true).dials = [("1.1.1.1", 53)] ∧
    ("1.1.1.1", 53) ≠ specUdpRelayEndpoint ∧
    (firstMessageTrace demoCfg demoSsDnsFrame true).outWrites
      ≠ [specUdpRelayFrameBytes "1.1.1.1" 53 demoDnsQuery] ∧
    (firstMessageTrace demoCfg demoSsDnsFrame true).wsCloseCodes = [1002] := by
  refine ⟨by decide, by decide, by decide, by decide⟩

/-- C3 (amended): the engine has no UDP relay path at all: for every
successfully parsed first frame — whatever its command or destination
port — `connectAndWrite` of src/src/proxy/stream.js dials the parsed
destination, and every buffer it writes to the outbound socket is the
handler's raw data verbatim (no `udp:host:port|` framing ever exists). -/
theorem c3_amended (cfg : Config) (data : List Nat) (h : ParsedFirst) (wOk : Bool)
    (hok : handleFirstMessageStream cfg data = .ok h) :
    (firstMessageTrace cfg data wOk).dials = [(h.addressRemote, h.portRemote)] ∧
    (∀ w ∈ (firstMessageTrace cfg data wOk).outWrites, h.rawDataAfterHandshake = some w) := by
  unfold firstMessageTrace connectAndWriteStream
  rw [hok]
  cases hr : h.rawDataAfterHandshake with
  | none => simp [hr]
  | some r => cases wOk <;> simp [hr]

/-- C3 witness: the amended statement applied to the spec's VLESS example
frame: the dial goes to the parsed destination example.com:443. -/
theorem c3_amended_witness :
    (firstMessageTrace demoCfg demoVlessFrame true).dials = [("example.com", 443)] :=
  (c3_amended demoCfg demoVlessFrame demoVlessParsed true (by decide)).1

/-- C4 counterexample: a TCP connection whose outbound read side closes
with `has_incoming_data` still false and a configured upstream distinct
from the parsed destination available; the claim demands a second dial to
the retry endpoint and a re-send of the residual payload, but the trace
contains exactly one dial and one write — the engine has no retry. -/
theorem c4_counterexample :
    (connectAndWriteP4 demoCfg "example.com" 443 (some (asciiBytes "GET")) none
        ⟨true, true, [], true⟩).hasIncomingData = false ∧
    demoCfg.proxyAddr ≠ "example.com" ∧
    (connectAndWriteP4 demoCfg "example.com" 443 (some (asciiBytes "GET")) none
        ⟨true, true, [], true⟩).dials.length = 1 ∧
    (connectAndWriteP4 demoCfg "example.com" 443 (some (asciiBytes "GET")) none
        ⟨true, true, [], true⟩).outWrites = [asciiBytes "GET"] := by
  refine ⟨by decide, by decide, by decide, by decide⟩

/-- C4 (amended): `connectAndWrite` of the fixed stream revision performs
at most one outbound dial and at most one residual-payload write per
call, never re-dials after the egress pump ends, and a dial failure (with
valid address, port and non-empty payload) closes the WebSocket with
code 1002 — there is no retry path. -/
theorem c4_amended (cfg : Config) (address : String) (port : Nat)
    (raw : Option (List Nat)) (rh : Option (List Nat)) (env : EngineEnv) :
    (connectAndWriteP4 cfg address port raw rh env).dials.length ≤ 1 ∧
    (connectAndWriteP4 cfg address port raw rh env).outWrites.length ≤ 1 ∧
    (∀ r : List Nat, env.dialOk = false → address ≠ "" → port ≠ 0 → raw = some r → r ≠ [] →
        connectAndWriteP4 cfg address port raw rh env
          = ⟨[(cfg.proxyAddr, cfg.proxyPort)], [], [], [some 1002], false⟩) := by
  refine ⟨?_, ?_, ?_⟩
  · unfold connectAndWriteP4
    repeat' split
    all_goals simp
  · unfold connectAndWriteP4
    repeat' split
    all_goals simp
  · intro r hdial haddr hport hraw hr
    subst hraw
    unfold connectAndWriteP4
    rw [if_neg (by simp [haddr, hport])]
    dsimp only []
    rw [if_neg (by simp [hr]), if_pos (by simp [hdial])]

/-- C4 witness: the amended statement applied to a concrete failing dial
with a non-empty residual payload. -/
theorem c4_amended_witness :
    connectAndWriteP4 demoCfg "example.com" 443 (some [7]) none ⟨false, true, [], true⟩
      = ⟨[("198.51.100.7", 443)], [], [], [some 1002], false⟩ :=
  (c4_amended demoCfg "example.com" 443 (some [7]) none ⟨false, true, [], true⟩).2.2
    [7] rfl (by decide) (by decide) rfl (by decide)

/-- C5 counterexample: a 20-byte frame whose byte 0 is zero and whose
bytes [1,17) are a v4-shaped UUID (the spec's example UUID) different
from the configured one: the claimed detector classifies it VLESS with no
further validation, while the source detector — which runs the full VLESS
parse including the configured-UUID comparison — rejects the frame
entirely. -/
theorem c5_counterexample :
    specDetectC5 demoFrameC5 = .vless ∧
    detectP4 demoCfg demoFrameC5 = .error "Unable to determine protocol from client data" := by
  refine ⟨by decide, by decide⟩

/-- C5 (amended): the fixed-revision detector requires at least 20 bytes
(otherwise a protocol error); it tries VLESS first whenever byte 0 is
zero and the full VLESS parse (configured-UUID comparison included)
succeeds; otherwise Trojan when the frame has at least 58 bytes and the
Trojan parse succeeds; otherwise VMess, whose handler always throws (so
VMess is never detected); otherwise Shadowsocks when its parse succeeds;
otherwise the detection fails.  No fixed-offset byte signature of the
form described in the claim is consulted. -/
theorem c5_amended (cfg : Config) (data : List Nat) :
    (data.length < 20 →
       handleFirstMessageP4 cfg data
         = .error ("Insufficient data for protocol detection: " ++ toString data.length ++ " bytes")) ∧
    (20 ≤ data.length → data.getD 0 0 = 0 → (vlessHandleHandshake cfg data).isOk = true →
       detectP4 cfg data = .ok .vless) ∧
    (20 ≤ data.length → ¬(data.getD 0 0 = 0 ∧ (vlessHandleHandshake cfg data).isOk = true) →
       58 ≤ data.length → (trojanHandleHandshake data).isOk = true →
       detectP4 cfg data = .ok .trojan) ∧
    (20 ≤ data.length → ¬(data.getD 0 0 = 0 ∧ (vlessHandleHandshake cfg data).isOk = true) →
       ¬(58 ≤ data.length ∧ (trojanHandleHandshake data).isOk = true) →
       (ssHandleHandshake data).isOk = true →
       detectP4 cfg data = .ok .shadowsocks) ∧
    detectP4 cfg data ≠ .ok .vmess := by
  have exVless : (vlessHandleHandshake cfg data).isOk = true →
      ∃ h, vlessHandleHandshake cfg data = .ok h := by
    intro hv
    cases he : vlessHandleHandshake cfg data
    · rw [he] at hv; simp [Except.isOk, Except.toBool] at hv
    · exact ⟨_, rfl⟩
  have exTrojan : (trojanHandleHandshake data).isOk = true →
      ∃ h, trojanHandleHandshake data = .ok h := by
    intro hv
    cases he : trojanHandleHandshake data
    · rw [he] at hv; simp [Except.isOk, Except.toBool] at hv
    · exact ⟨_, rfl⟩
  have exSs : (ssHandleHandshake data).isOk = true →
      ∃ h, ssHandleHandshake data = .ok h := by
    intro hv
    cases he : ssHandleHandshake data
    · rw [he] at hv; simp [Except.isOk, Except.toBool] at hv
    · exact ⟨_, rfl⟩
  have s1none : ¬(data.getD 0 0 = 0 ∧ (vlessHandleHandshake cfg data).isOk = true) →
      (if data.getD 0 0 = 0 then (vlessHandleHandshake cfg data).toOption else none) = none := by
    intro hnv
    by_cases hz : data.getD 0 0 = 0
    · rw [if_pos hz]
      cases he : vlessHandleHandshake cfg data with
      | error e => simp [Except.toOption]
      | ok h => exact absurd ⟨hz, by rw [he]; rfl⟩ hnv
    · rw [if_neg hz]
  have s2none : ¬(58 ≤ data.length ∧ (trojanHandleHandshake data).isOk = true) →
      (if 58 ≤ data.length then (trojanHandleHandshake data).toOption else none) = none := by
    intro hnv
    by_cases h58 : 58 ≤ data.length
    · rw [if_pos h58]
      cases he : trojanHandleHandshake data with
      | error e => simp [Except.toOption]
      | ok h => exact absurd ⟨h58, by rw [he]; rfl⟩ hnv
    · rw [if_neg h58]
  refine ⟨?_, ?_, ?_, ?_, ?_⟩
  · intro hshort
    unfold handleFirstMessageP4
    rw [if_pos hshort]
  · intro hlen hz hv
    obtain ⟨h, he⟩ := exVless hv
    unfold detectP4 handleFirstMessageP4
    rw [if_neg (by omega), if_pos hz, he]
    simp [Except.toOption, Except.map]
  · intro hlen hnv h58 ht
    obtain ⟨h, he⟩ := exTrojan ht
    unfold detectP4 handleFirstMessageP4
    rw [if_neg (by omega), s1none hnv, if_pos h58, he]
    simp [Except.toOption, Except.map]
  · intro hlen hnv hnt hs
    obtain ⟨h, he⟩ := exSs hs
    unfold detectP4 handleFirstMessageP4
    rw [if_neg (by omega), s1none hnv, s2none hnt, he]
    simp [Except.toOption, Except.map]
  · unfold detectP4 handleFirstMessageP4
    repeat' split
    all_goals simp [Except.map]

/-- C5 witness: the amended statement applied to concrete frames of each
kind. -/
theorem c5_amended_witness :
    handleFirstMessageP4 demoCfg [1, 2, 3]
      = .error ("Insufficient data for protocol detection: " ++ toString (3 : Nat) ++ " bytes") ∧
    detectP4 demoCfg demoVlessFrame = .ok .vless ∧
    detectP4 demoCfg demoTrojanFrame = .ok .trojan ∧
    detectP4 demoCfg demoSsLongFrame = .ok .shadowsocks ∧
    detectP4 demoCfg demoFrameC5 ≠ .ok .vmess :=
  ⟨(c5_amended demoCfg [1, 2, 3]).1 (by decide),
   (c5_amended demoCfg demoVlessFrame).2.1 (by decide) (by decide) (by decide),
   (c5_amended demoCfg demoTrojanFrame).2.2.1 (by decide) (by decide) (by decide) (by decide),
   (c5_amended demoCfg demoSsLongFrame).2.2.2.1 (by decide) (by decide) (by decide) (by decide),
   (c5_amended demoCfg demoFrameC5).2.2.2.2⟩

set_option maxRecDepth 4000 in
/-- C7 counterexample: path "SG,HK" with two SG entries and uniform
random bytes.  Under the claimed independent uniform choice the outcome
(code SG, entry index 1) would occur for 64 of the 256 byte values; in
the source the SAME byte picks both indices, so (SG, entry 1) never
occurs (byte even selects SG and even mod 2 selects entry 0) while
(SG, entry 0) occurs 128 times — the two choices are not independent. -/
theorem c7_counterexample :
    ((List.range 256).filter
        (fun b => decide (selectIndices ["SG", "HK"] demoKv b = .ok (0, 1)))).length = 0 ∧
    ((List.range 256).filter
        (fun b => decide (selectIndices ["SG", "HK"] demoKv b = .ok (0, 0)))).length = 128 := by
  refine ⟨by decide, by decide⟩

/-- C7 (amended): one region code and one entry are selected with the
SAME random byte (`randBytes[0]`, drawn from `crypto.getRandomValues`):
the code index is `randBytes[0] % kvidList.length` and the entry index is
`randBytes[0] % proxyList.length`, so the two choices are dependent and
each is uniform only when its modulus divides 256; an empty or missing
region list fails the request with status 502. -/
theorem c7_amended :
    (∀ (kvid : List String) (kv : List (String × List String)) (rb : List Nat) (l : List String),
        kvLookup kv (kvid.getD (rb.getD 0 0 % kvid.length) "") = some l → 0 < l.length →
        selectProxy kvid kv rb = .ok (jsReplaceColonDash (l.getD (rb.getD 0 0 % l.length) ""))) ∧
    (∀ (kvid : List String) (kv : List (String × List String)) (rb : List Nat) (l : List String),
        kvLookup kv (kvid.getD (rb.getD 0 0 % kvid.length) "") = some l → l.length = 0 →
        selectProxy kvid kv rb = .error 502) ∧
    (∀ (kvid : List String) (kv : List (String × List String)) (rb : List Nat),
        kvLookup kv (kvid.getD (rb.getD 0 0 % kvid.length) "") = none →
        selectProxy kvid kv rb = .error 502) := by
  refine ⟨?_, ?_, ?_⟩
  · intro kvid kv rb l hb hl
    unfold selectProxy
    dsimp only []
    rw [hb]
    dsimp only []
    rw [if_pos hl]
  · intro kvid kv rb l hb hl
    unfold selectProxy
    dsimp only []
    rw [hb]
    dsimp only []
    rw [if_neg (by omega)]
  · intro kvid kv rb hb
    unfold selectProxy
    dsimp only []
    rw [hb]

/-- C7 witness: the amended statement applied to path "SG" and random
byte 7: the single region code SG is selected, and entry 7 % 2 = 1 of its
list, with the colon replaced by a dash. -/
theorem c7_amended_witness :
    selectProxy ["SG"] demoKv [7, 99] = .ok "2.2.2.2-2" :=
  c7_amended.1 ["SG"] demoKv [7, 99] ["1.1.1.1:1", "2.2.2.2:2"] (by decide) (by decide)

/-- C8 counterexample: a request whose `sec-websocket-protocol` header
carries the early-data payload "AAAA" (which base64url-decodes to three
zero bytes): the claim says this payload is decoded and enqueued as the
first buffer, but the source never reads that header — the upgrade result
is identical to the one for a request without the header and its initial
buffer queue is empty, not `[decoded payload]`. -/
theorem c8_counterexample :
    handleTunnelUpgrade ⟨some "websocket", some "AAAA"⟩ = ⟨101, true, []⟩ ∧
    handleTunnelUpgrade ⟨some "websocket", some "AAAA"⟩
      = handleTunnelUpgrade ⟨some "websocket", none⟩ ∧
    specBase64UrlDecode "AAAA" = [0, 0, 0] ∧
    (handleTunnelUpgrade ⟨some "websocket", some "AAAA"⟩).initialBuffers
      ≠ [specBase64UrlDecode "AAAA"] := by
  refine ⟨by decide, by decide, by decide, by decide⟩

/-- C8 (amended): the tunnel handler reads only the `Upgrade` header —
its result is independent of `sec-websocket-protocol` — and the stream
enqueues no buffer before the first WebSocket message, so no early data
is ever decoded or enqueued and a decoding failure cannot occur. -/
theorem c8_amended (h h2 : RequestHeaders) (he : h.upgrade = h2.upgrade) :
    handleTunnelUpgrade h = handleTunnelUpgrade h2 ∧
    (handleTunnelUpgrade h).initialBuffers = [] := by
  unfold handleTunnelUpgrade
  rw [he]
  refine ⟨rfl, ?_⟩
  split <;> rfl

/-- C8 witness: the amended statement applied to two concrete requests
differing only in the `sec-websocket-protocol` header. -/
theorem c8_amended_witness :
    handleTunnelUpgrade ⟨some "websocket", some "ZWFybHk"⟩
      = handleTunnelUpgrade ⟨some "websocket", none⟩ ∧
    (handleTunnelUpgrade ⟨some "websocket", some "ZWFybHk"⟩).initialBuffers = [] :=
  c8_amended ⟨some "websocket", some "ZWFybHk"⟩ ⟨some "websocket", none⟩ rfl

/-- A step on a connection whose WebSocket is already closed changes
nothing (its close event has ended the readable stream). -/
theorem stepChunk_closed (cfg : Config) (st : ConnState) (chunk : List Nat) (env : ChunkEnv)
    (hc : st.wsCloseCodes ≠ []) : stepChunk cfg st chunk env = st := by
  unfold stepChunk
  rw [if_neg hc]

/-- Running any chunk list from a closed state changes nothing. -/
theorem runChunks_closed (cfg : Config) (st : ConnState) (chunks : List (List Nat × ChunkEnv))
    (hc : st.wsCloseCodes ≠ []) : runChunks cfg st chunks = st := by
  induction chunks with
  | nil => rfl
  | cons p rest ih =>
    obtain ⟨c, env⟩ := p
    simp only [runChunks]
    rw [stepChunk_closed cfg st c env hc]
    exact ih

/-- With a filled slot and an open WebSocket, the ingress pump appends to
the outbound exactly the chunks whose writes succeed, in order, and
changes nothing else. -/
theorem runChunks_filled (cfg : Config) (chunks : List (List Nat × ChunkEnv)) :
    ∀ st : ConnState, st.slotFilled = true → st.wsCloseCodes = [] →
    runChunks cfg st chunks = { st with outWrites := st.outWrites ++ forwardWrites chunks } := by
  induction chunks with
  | nil => intro st _ _; simp [runChunks, forwardWrites]
  | cons p rest ih =>
    intro st hs hc
    obtain ⟨c, env⟩ := p
    simp only [runChunks]
    by_cases hw : env.writeOk = true
    · have hstep : stepChunk cfg st c env = { st with outWrites := st.outWrites ++ [c] } := by
        unfold stepChunk
        rw [if_pos hc, if_pos hs, if_pos hw]
      rw [hstep, ih { st with outWrites := st.outWrites ++ [c] } hs hc]
      simp [forwardWrites, List.filter_cons, hw, List.append_assoc]
    · have hw2 : env.writeOk = false := by revert hw; cases env.writeOk <;> simp
      have hstep : stepChunk cfg st c env = st := by
        unfold stepChunk
        rw [if_pos hc, if_pos hs, if_neg (by simp [hw2])]
      rw [hstep, ih st hs hc]
      simp [forwardWrites, List.filter_cons, hw2]

/-- While the slot is empty, chunks that fail protocol determination
produce no outbound writes (the first failure closes the WebSocket and
ends the stream). -/
theorem runChunks_noHandshake (cfg : Config) (st : ConnState)
    (chunks : List (List Nat × ChunkEnv)) (hslot : st.slotFilled = false)
    (hfail : ∀ p ∈ chunks, (handleFirstMessageStream cfg p.1).isOk = false) :
    (runChunks cfg st chunks).outWrites = st.outWrites := by
  revert hfail
  induction chunks with
  | nil => intro _; rfl
  | cons p rest ih =>
    intro hfail
    obtain ⟨c, env⟩ := p
    by_cases hc : st.wsCloseCodes = []
    · simp only [runChunks]
      have hf := hfail (c, env) (by simp)
      have hstep : stepChunk cfg st c env
          = { st with wsCloseCodes := st.wsCloseCodes ++ [1002] } := by
        unfold stepChunk
        rw [if_pos hc, if_neg (by simp [hslot])]
        cases he : handleFirstMessageStream cfg c with
        | ok h => rw [he] at hf; simp [Except.isOk, Except.toBool] at hf
        | error e => rfl
      rw [hstep, runChunks_closed cfg _ rest (by simp)]
    · simp only [runChunks]
      rw [stepChunk_closed cfg st c env hc]
      exact ih (fun q hq => hfail q (List.mem_cons_of_mem _ hq))

/-- C9: no pre-handshake forwarding.  While the outbound slot is empty,
chunks that fail protocol determination write nothing to the outbound;
and when the first chunk parses to a header whose residual payload is
present and whose handshake write succeeds, the outbound receives exactly
that residual payload first, followed by the later client chunks whose
writes succeed, in order — every outbound byte is preceded by a completed
header parse. -/
theorem c9_confirmed (cfg : Config) :
    (∀ chunks : List (List Nat × ChunkEnv),
        (∀ p ∈ chunks, (handleFirstMessageStream cfg p.1).isOk = false) →
        (runChunks cfg initConnState chunks).outWrites = []) ∧
    (∀ (c : List Nat) (env : ChunkEnv) (rest : List (List Nat × ChunkEnv))
        (h : ParsedFirst) (r : List Nat),
        handleFirstMessageStream cfg c = .ok h →
        h.rawDataAfterHandshake = some r → env.writeOk = true →
        (runChunks cfg initConnState ((c, env) :: rest)).outWrites = r :: forwardWrites rest) := by
  constructor
  · intro chunks hfail
    exact runChunks_noHandshake cfg initConnState chunks rfl hfail
  · intro c env rest h r hok hr hw
    simp only [runChunks]
    have hstep : stepChunk cfg initConnState c env
        = ⟨true, [(h.addressRemote, h.portRemote)], [r], []⟩ := by
      simp [stepChunk, connectAndWriteStream, initConnState, hok, hr, hw]
    rw [hstep, runChunks_filled cfg rest _ rfl rfl]
    rfl

/-- C9 witness: the confirmed statement applied to a failing chunk list
and to the spec's VLESS example frame followed by one forwarded chunk. -/
theorem c9_confirmed_witness :
    (runChunks demoCfg initConnState [([170], ⟨true⟩)]).outWrites = [] ∧
    (runChunks demoCfg initConnState [(demoVlessFrame, ⟨true⟩), ([7, 8], ⟨true⟩)]).outWrites
      = asciiBytes "GET / HTTP/1.1\r\n\r\n" :: forwardWrites [([7, 8], ⟨true⟩)] :=
  ⟨(c9_confirmed demoCfg).1 [([170], ⟨true⟩)] (by decide),
   (c9_confirmed demoCfg).2 demoVlessFrame ⟨true⟩ [([7, 8], ⟨true⟩)] demoVlessParsed
     (asciiBytes "GET / HTTP/1.1\r\n\r\n") (by decide) (by decide) rfl⟩

/-- C10: a failed write of a non-first chunk is swallowed by the
try/catch of `forwardToRemote`: the state is completely unchanged (the
chunk is dropped, nothing is re-sent, the WebSocket stays open, the slot
stays filled) and processing continues with the remaining chunks exactly
as if the failed chunk had never arrived. -/
theorem c10_confirmed (cfg : Config) (st : ConnState) (c : List Nat) (env : ChunkEnv)
    (rest : List (List Nat × ChunkEnv))
    (hs : st.slotFilled = true) (hc : st.wsCloseCodes = []) (hw : env.writeOk = false) :
    stepChunk cfg st c env = st ∧
    runChunks cfg st ((c, env) :: rest) = runChunks cfg st rest := by
  have h1 : stepChunk cfg st c env = st := by
    unfold stepChunk
    rw [if_pos hc, if_pos hs, if_neg (by simp [hw])]
  exact ⟨h1, by simp only [runChunks]; rw [h1]⟩

/-- C10 witness: the confirmed statement applied to a concrete filled
slot, a failing chunk and a succeeding follow-up chunk. -/
theorem c10_confirmed_witness :
    stepChunk demoCfg ⟨true, [], [], []⟩ [1, 2, 3] ⟨false⟩ = ⟨true, [], [], []⟩ ∧
    runChunks demoCfg ⟨true, [], [], []⟩ [([1, 2, 3], ⟨false⟩), ([4], ⟨true⟩)]
      = runChunks demoCfg ⟨true, [], [], []⟩ [([4], ⟨true⟩)] :=
  c10_confirmed demoCfg ⟨true, [], [], []⟩ [1, 2, 3] ⟨false⟩ [([4], ⟨true⟩)] rfl rfl rfl

end Beacon
